import Mathlib

/-!
Verification of the model-lifecycle and request-orchestration layer of the
caption-backend service (an Express HTTP service wrapping an image-to-text
pipeline).

The repository consists of several near-duplicate variants of one server.
The definitions below are a shallow embedding of the shared logic:

* the lazy, memoized, fallback-capable loader `getPipe` (src/server.js
  lines 366-397 and its duplicates) is embedded as a small-step transition
  system `loadStep` over `LoaderState`.  The JavaScript module state
  `pipePromise / ready / activeModel` becomes the fields `phase / ready /
  activeModel`; `phase = idle` corresponds to `pipePromise === null`, and a
  non-idle phase carries the identity `pid` of the shared promise that
  `pipePromise` holds.  Ghost fields record which promise each caller of
  `getPipe` received (`callerPids`), how many load sequences were started
  (`loadsStarted`), and how each promise settled (`settled`).  Because the
  JavaScript runtime is single-threaded and `getPipe` has no `await`
  between the `if (pipePromise)` check and the assignment, one call is one
  atomic step.
* the request handlers (`GET /ready`, `GET /health`, `POST /caption`) are
  embedded as pure functions of the loader state, the request body, and an
  oracle supplying the results of the external calls (network fetch,
  base64 decode, image decode, inference).
* the image-statistics helpers (`getSaturation`, the brightness / contrast
  / edge-density assembly of the metrics variants) are embedded over `ℚ`;
  the comparisons proved about them are exact in IEEE double precision as
  well, since they only involve order relations that survive monotone
  rounding.
-/

/-- Default primary model identifier (src/server.js line 334,
`process.env.MODEL_ID || 'Xenova/vit-gpt2-image-captioning'` with the
environment variable absent). -/
def PRIMARY_MODEL : String := "Xenova/vit-gpt2-image-captioning"

/-- Default fallback model identifier (src/server.js line 336). -/
def FALLBACK_MODEL : String := "Xenova/tiny-vit-gpt2"

/-- Phase of the shared loader.  `idle` is `pipePromise === null`; the
other three phases carry the promise id held by `pipePromise`:
waiting on the primary `pipeline(...)` call, waiting on the fallback
call inside the `.catch`, or resolved with a backend handle. -/
inductive LoadPhase where
  | idle : LoadPhase
  | loadingPrimary : Nat → LoadPhase
  | loadingFallback : Nat → LoadPhase
  | resolved : Nat → Nat → LoadPhase
deriving DecidableEq, Repr

/-- The promise id currently installed in `pipePromise`, if any. -/
def LoadPhase.pid? : LoadPhase → Option Nat
  | .idle => none
  | .loadingPrimary p => some p
  | .loadingFallback p => some p
  | .resolved p _ => some p

/-- How a shared load promise settled: with a backend handle, or with an
error message. -/
inductive LoadOutcome where
  | success : Nat → LoadOutcome
  | failure : String → LoadOutcome
deriving DecidableEq, Repr

/-- Module-level loader state of the fallback-capable variants
(src/server.js lines 339-341: `pipePromise`, `ready`, `activeModel`),
extended with ghost bookkeeping: `nextPid` allocates promise ids,
`loadsStarted` counts started load sequences, `callerPids` records which
promise each `getPipe` caller received, `settled` records the outcome of
each settled promise. -/
structure LoaderState where
  phase : LoadPhase
  ready : Bool
  activeModel : Option String
  nextPid : Nat
  loadsStarted : Nat
  callerPids : List Nat
  settled : List (Nat × LoadOutcome)
deriving DecidableEq, Repr

/-- Initial module state: `pipePromise = null`, `ready = false`,
`activeModel = null` (src/server.js lines 339-341). -/
def initLoader : LoaderState :=
  { phase := .idle, ready := false, activeModel := none,
    nextPid := 0, loadsStarted := 0, callerPids := [], settled := [] }

/-- Events of the loader transition system: a caller invokes `getPipe`,
or one of the pending `pipeline(...)` calls settles. -/
inductive LoadEvent where
  | call : LoadEvent
  | primaryOk : Nat → LoadEvent
  | primaryFail : String → LoadEvent
  | fallbackOk : Nat → LoadEvent
  | fallbackFail : String → LoadEvent
deriving DecidableEq, Repr

/-- One atomic step of the loader, transcribing `getPipe`
(src/server.js lines 366-397):

* `call` with `pipePromise` null starts the primary `pipeline` call and
  installs the chained promise; with `pipePromise` set it just returns
  the installed promise (`if (pipePromise) return pipePromise`).
* `primaryOk` runs `markReady(p, PRIMARY_MODEL)` (lines 369-374) and
  resolves the shared promise.
* `primaryFail` enters the `.catch` and starts the fallback call
  (lines 379-387).
* `fallbackOk` runs `markReady(p2, FALLBACK_MODEL)` (line 387) and
  resolves the shared promise.
* `fallbackFail` executes the inner catch (lines 388-393): it resets
  `pipePromise = null; ready = false; activeModel = null` and rethrows,
  rejecting the shared promise.

Events not enabled in the current phase yield `none`. -/
def loadStep (s : LoaderState) : LoadEvent → Option LoaderState
  | .call =>
    match s.phase with
    | .idle =>
        some { s with phase := .loadingPrimary s.nextPid,
                      nextPid := s.nextPid + 1,
                      loadsStarted := s.loadsStarted + 1,
                      callerPids := s.callerPids ++ [s.nextPid] }
    | .loadingPrimary p => some { s with callerPids := s.callerPids ++ [p] }
    | .loadingFallback p => some { s with callerPids := s.callerPids ++ [p] }
    | .resolved p _ => some { s with callerPids := s.callerPids ++ [p] }
  | .primaryOk h =>
    match s.phase with
    | .loadingPrimary p =>
        some { s with phase := .resolved p h, ready := true,
                      activeModel := some PRIMARY_MODEL,
                      settled := s.settled ++ [(p, .success h)] }
    | _ => none
  | .primaryFail _ =>
    match s.phase with
    | .loadingPrimary p => some { s with phase := .loadingFallback p }
    | _ => none
  | .fallbackOk h =>
    match s.phase with
    | .loadingFallback p =>
        some { s with phase := .resolved p h, ready := true,
                      activeModel := some FALLBACK_MODEL,
                      settled := s.settled ++ [(p, .success h)] }
    | _ => none
  | .fallbackFail e =>
    match s.phase with
    | .loadingFallback p =>
        some { s with phase := .idle, ready := false, activeModel := none,
                      settled := s.settled ++ [(p, .failure e)] }
    | _ => none

/-- Run a sequence of loader events from a state. -/
def runLoader : List LoadEvent → LoaderState → Option LoaderState
  | [], s => some s
  | e :: t, s =>
    match loadStep s e with
    | some s2 => runLoader t s2
    | none => none

/-- Outcome of one complete load attempt sequence: the primary call
succeeds, or the primary fails and the fallback succeeds, or both fail. -/
inductive AttemptOutcome where
  | primaryOk : Nat → AttemptOutcome
  | fallbackOk : String → Nat → AttemptOutcome
  | bothFail : String → String → AttemptOutcome
deriving DecidableEq, Repr

/-- The settlement events of one attempt sequence. -/
def attemptEvents : AttemptOutcome → List LoadEvent
  | .primaryOk h => [.primaryOk h]
  | .fallbackOk e h => [.primaryFail e, .fallbackOk h]
  | .bothFail e e2 => [.primaryFail e, .fallbackFail e2]

/-- The outcome every waiter of the shared promise observes for one
attempt sequence. -/
def attemptResult : AttemptOutcome → LoadOutcome
  | .primaryOk h => .success h
  | .fallbackOk _ h => .success h
  | .bothFail _ e2 => .failure e2

/-- Whether the attempt sequence ended with a loaded backend. -/
def AttemptOutcome.isSuccess : AttemptOutcome → Bool
  | .bothFail _ _ => false
  | _ => true

/-- A JSON value as relevant to the request body fields (the handlers only
test `typeof x === 'number'`). -/
inductive JsVal where
  | num : ℚ → JsVal
  | str : String → JsVal
  | boolv : Bool → JsVal
  | nullv : JsVal
deriving DecidableEq, Repr

/-- JavaScript truthiness of an optional string field (`undefined` and the
empty string are falsy; every other string is truthy). -/
def truthy : Option String → Bool
  | none => false
  | some s => !(s == "")

/-- JavaScript `a || b` on two optional string fields: the value of `b`
when `a` is falsy, else `a` (src/server.js line 445,
`image_url || image_base64`). -/
def jsOrStr (a b : Option String) : Option String :=
  if truthy a then a else b

/-- JavaScript `m || d` where `m` is the nullable `activeModel` and `d` a
non-empty default (src/server.js lines 362 and 462,
`activeModel || PRIMARY_MODEL`). -/
def jsOrDefault (m : Option String) (d : String) : String :=
  match m with
  | none => d
  | some s => if s == "" then d else s

/-- Body of a `POST /caption` request as destructured by the handlers
(src/server.js line 442). -/
structure CaptionBody where
  image_url : Option String
  image_base64 : Option String
  max_new_tokens : Option JsVal
deriving DecidableEq, Repr

/-- The `max_new_tokens` option passed to the pipeline by the
fallback-capable handlers (src/server.js line 456:
`typeof max_new_tokens === 'number' ? max_new_tokens : 40`). -/
def effMaxNewTokens : Option JsVal → ℚ
  | some (.num n) => n
  | _ => 40

/-- The `max_new_tokens` option passed to the pipeline by the first
variant of src/server.js (line 73: the literal `{ max_new_tokens: 40 }`,
independent of the request body). -/
def effMaxNewTokensFirstVariant : Option JsVal → ℚ :=
  fun _ => 40

/-- Result of the external `fetch` call. -/
structure FetchResult where
  ok : Bool
  status : Nat
  bytes : List Nat
deriving DecidableEq, Repr

/-- Oracle supplying the results of the external calls a caption request
makes: network fetch, base64 decoding, `RawImage.read` (on raw bytes as
in src/server.js line 448, or on a URL / data-URI string as in
src/unnamed/part_001 line 127), and pipeline inference (on a decoded
image, or directly on raw bytes as in the part_002 variant).  Handles
and images are opaque numeric tokens. -/
structure Oracle where
  fetch : String → FetchResult
  b64decode : String → List Nat
  rawRead : List Nat → Except String Nat
  readImage : String → Except String Nat
  infer : Nat → Nat → ℚ → Except String (List String)
  inferBytes : Nat → List Nat → ℚ → Except String (List String)

/-- Whether the character list starting with the first argument is a case
of the second; character-level helper for the prefix tests below. -/
def listStartsWith : List Char → List Char → Bool
  | [], _ => true
  | _ :: _, [] => false
  | p :: ps, c :: cs => p == c && listStartsWith ps cs

/-- Test for the `/^https?:\/\//i` dispatch in `getImageBytes`
(src/server.js line 419): the string starts, case-insensitively, with
`http://` or `https://`. -/
def isHttpUrl (s : String) : Bool :=
  listStartsWith ("http://".data) (s.data.map Char.toLower) ||
  listStartsWith ("https://".data) (s.data.map Char.toLower)

/-- `String.startsWith` over the character lists, so that concrete
instances reduce. -/
def startsWithLit (pre s : String) : Bool :=
  listStartsWith pre.data s.data

/-- Characters of a segment up to the next comma. -/
def upToComma : List Char → List Char
  | [] => []
  | c :: cs => if c == ',' then [] else c :: upToComma cs

/-- The segment after the first comma and before the second, if a first
comma exists. -/
def segAfterFirstComma : List Char → Option (List Char)
  | [] => none
  | c :: cs => if c == ',' then some (upToComma cs) else segAfterFirstComma cs

/-- JavaScript `s.split(',')[1]`: the second comma-separated segment, or
`undefined` (here `none`) when the string has no comma
(src/server.js line 427). -/
def dataPayload (s : String) : Option String :=
  (segAfterFirstComma s.data).map (fun l => ⟨l⟩)

/-- `getImageBytes` (src/server.js lines 415-437): throw when the input is
falsy, fetch when it is an http(s) URL (error on a non-ok response),
base64-decode the payload of a data URI (a data URI with no comma makes
`Buffer.from(undefined, 'base64')` throw a TypeError), else base64-decode
the whole string.  `Buffer.from(s, 'base64')` on a string never throws,
so decoding proper is total. -/
def getImageBytes (o : Oracle) (input : Option String) : Except String (List Nat) :=
  match input with
  | none => .error "Falta image_url o image_base64"
  | some s =>
    if s == "" then .error "Falta image_url o image_base64"
    else if isHttpUrl s then
      let r := o.fetch s
      if r.ok then .ok r.bytes else .error ("fetch " ++ toString r.status)
    else if startsWithLit ("data:image/") s then
      match dataPayload s with
      | some b64 => .ok (o.b64decode b64)
      | none => .error "The first argument must be of type string"
    else
      .ok (o.b64decode s)

/-- Body of an HTTP response from the caption endpoint. -/
inductive RespBody where
  | captionOk : String → String → RespBody
  | errorMsg : String → RespBody
deriving DecidableEq, Repr

/-- HTTP response: status code and JSON body. -/
structure HttpResp where
  status : Nat
  body : RespBody
deriving DecidableEq, Repr

/-- The `POST /caption` handler of the fallback-capable variant
(src/server.js lines 440-469).  In order: `getImageBytes(image_url ||
image_base64)`, `RawImage.read(bytes)`, `await getPipe()` (whose settled
outcome is the `pipeOutcome` argument), inference with the conditional
`max_new_tokens`, then a 200 response with
`caption = out?.[0]?.generated_text ?? ''` and
`model = activeModel || PRIMARY_MODEL`.  Any rejection along the way is
caught and turned into `500 {error}`. -/
def postCaption (o : Oracle) (pipeOutcome : Except String Nat)
    (activeModel : Option String) (body : CaptionBody) : HttpResp :=
  let r : Except String String := do
    let bytes ← getImageBytes o (jsOrStr body.image_url body.image_base64)
    let img ← o.rawRead bytes
    let pipe ← pipeOutcome
    let outs ← o.infer pipe img (effMaxNewTokens body.max_new_tokens)
    pure (outs.headD "")
  match r with
  | .ok caption => { status := 200, body := .captionOk caption (jsOrDefault activeModel PRIMARY_MODEL) }
  | .error e => { status := 500, body := .errorMsg e }

/-- Module-level `const` bindings of the part_002 variant
(src/unnamed/part_002 lines 21-23).  That variant declares
`PORT`, `PRIMARY_MODEL` and `FALLBACK_MODEL`; it never declares
`MODEL_ID`. -/
def part002Consts : List (String × String) :=
  [("PORT", "8080"), ("PRIMARY_MODEL", PRIMARY_MODEL), ("FALLBACK_MODEL", FALLBACK_MODEL)]

/-- Identifier lookup in a constant environment; `none` models a
JavaScript `ReferenceError` on an undeclared identifier. -/
def lookupConst (env : List (String × String)) (nm : String) : Option String :=
  (env.find? (fun p => p.1 == nm)).map Prod.snd

/-- The `POST /caption` handler of the part_002 variant
(src/unnamed/part_002 lines 132-159).  Same shape as `postCaption`, but
the pipeline is invoked directly on the raw bytes, and the response
assembly evaluates the identifier `MODEL_ID` (line 152), which is not
declared in that module: evaluating it throws a `ReferenceError`, which
the surrounding `try` converts into a 500 response. -/
def part002PostCaption (o : Oracle) (pipeOutcome : Except String Nat)
    (body : CaptionBody) : HttpResp :=
  let r : Except String (String × String) := do
    let bytes ← getImageBytes o (jsOrStr body.image_url body.image_base64)
    let pipe ← pipeOutcome
    let outs ← o.inferBytes pipe bytes (effMaxNewTokens body.max_new_tokens)
    let modelVal ←
      match lookupConst part002Consts "MODEL_ID" with
      | some v => Except.ok v
      | none => Except.error "MODEL_ID is not defined"
    pure (outs.headD "", modelVal)
  match r with
  | .ok cm => { status := 200, body := .captionOk cm.1 cm.2 }
  | .error e => { status := 500, body := .errorMsg e }

/-- Response of `GET /ready`. -/
structure ReadyResp where
  ready : Bool
  model : Option String
deriving DecidableEq, Repr

/-- Response of `GET /health`. -/
structure HealthResp where
  ok : Bool
  model : String
deriving DecidableEq, Repr

/-- The `GET /ready` handler (src/server.js lines 410-412): it reads
`ready` and `activeModel` and returns the state untouched; it never
calls `getPipe`. -/
def handleReady (s : LoaderState) : LoaderState × ReadyResp :=
  (s, { ready := s.ready, model := s.activeModel })

/-- The `GET /health` handler (src/server.js lines 361-363): it returns
`{ok: true, model: activeModel || PRIMARY_MODEL}` and the state
untouched; it never calls `getPipe`. -/
def handleHealth (s : LoaderState) : LoaderState × HealthResp :=
  (s, { ok := true, model := jsOrDefault s.activeModel PRIMARY_MODEL })

/-- `getSaturation` (src/server.js lines 204-210), over exact rationals:
`max`, `min` and lightness of the three inputs, returning 0 when the
lightness is 0 or the channels are equal, else the HSL quotient. -/
def getSaturation (r g b : ℚ) : ℚ :=
  let mx := max r (max g b)
  let mn := min r (min g b)
  let l := (mx + mn) / 2
  if l = 0 ∨ mx = mn then 0 else (mx - mn) / (1 - |2 * l - 1|)

/-- The `brightness` metric (src/unnamed/part_000 line 161): mean of the
three channel means, divided by 255. -/
def brightnessMetric (rMean gMean bMean : ℚ) : ℚ :=
  (rMean + gMean + bMean) / 3 / 255

/-- The `contrast` metric (src/unnamed/part_000 line 163): mean of the
three channel standard deviations, divided by 255. -/
def contrastMetric (rStdev gStdev bStdev : ℚ) : ℚ :=
  (rStdev + gStdev + bStdev) / 3 / 255

/-- The `edgeDensity` metric (src/unnamed/part_000 lines 150-154): sum of
the edge-buffer bytes, divided by the buffer length, divided by 255. -/
def edgeDensityMetric (buf : List Nat) : ℚ :=
  (buf.map (fun x : Nat => (x : ℚ))).sum / (buf.length : ℚ) / 255

theorem runLoader_append (t1 t2 : List LoadEvent) (s : LoaderState) :
    runLoader (t1 ++ t2) s =
      match runLoader t1 s with
      | some s1 => runLoader t2 s1
      | none => none := by
  induction t1 generalizing s with
  | nil => simp [runLoader]
  | cons e t ih =>
    simp only [List.cons_append, runLoader]
    cases h : loadStep s e with
    | none => rfl
    | some s2 => exact ih s2

theorem loadStep_call_busy (s : LoaderState) (p : Nat) (h : s.phase.pid? = some p) :
    loadStep s .call = some { s with callerPids := s.callerPids ++ [p] } := by
  cases hp : s.phase <;> simp [LoadPhase.pid?, hp] at h <;> simp [loadStep, hp, h]

theorem runLoader_calls_busy (m : Nat) (s : LoaderState) (p : Nat)
    (h : s.phase.pid? = some p) :
    runLoader (List.replicate m .call) s =
      some { s with callerPids := s.callerPids ++ List.replicate m p } := by
  induction m generalizing s with
  | zero => simp [runLoader]
  | succ k ih =>
    rw [List.replicate_succ]
    simp only [runLoader, loadStep_call_busy s p h]
    rw [ih { s with callerPids := s.callerPids ++ [p] } h]
    simp [List.append_assoc, List.replicate_succ]
theorem runLoader_append_of (t1 t2 : List LoadEvent) (s s1 : LoaderState)
    (h : runLoader t1 s = some s1) :
    runLoader (t1 ++ t2) s = runLoader t2 s1 := by
  rw [runLoader_append, h]

theorem runLoader_calls_init (k : Nat) :
    runLoader (List.replicate (k + 1) .call) initLoader =
      some { phase := .loadingPrimary 0, ready := false, activeModel := none,
             nextPid := 1, loadsStarted := 1, callerPids := List.replicate (k + 1) 0,
             settled := [] } := by
  rw [List.replicate_succ]
  have h1 : loadStep initLoader .call =
      some { phase := .loadingPrimary 0, ready := false, activeModel := none,
             nextPid := 1, loadsStarted := 1, callerPids := [0], settled := [] } := rfl
  simp only [runLoader, h1]
  exact runLoader_calls_busy k _ 0 rfl

/-- C1: concurrent calls to getPipe issued while no load is in flight and
none has completed start exactly one load attempt sequence, all callers
receive the same shared promise (id 0), that promise settles exactly once
with the outcome of the attempt sequence (so every caller observes the
same eventual outcome), and when the sequence succeeded, further calls
never start a second load: they only receive the same promise again. -/
theorem getPipe_single_flight (n : Nat) (hn : 1 ≤ n) (a : AttemptOutcome) :
    ∃ s : LoaderState,
      runLoader (List.replicate n .call ++ attemptEvents a) initLoader = some s ∧
      s.loadsStarted = 1 ∧
      s.callerPids = List.replicate n 0 ∧
      s.settled = [(0, attemptResult a)] ∧
      (a.isSuccess = true → ∀ m : Nat,
        runLoader (List.replicate m .call) s =
          some { s with callerPids := s.callerPids ++ List.replicate m 0 }) := by
  obtain ⟨k, rfl⟩ : ∃ k, n = k + 1 := ⟨n - 1, (Nat.succ_pred_eq_of_pos hn).symm⟩
  have hcalls := runLoader_calls_init k
  cases a with
  | primaryOk h =>
    refine ⟨{ phase := .resolved 0 h, ready := true, activeModel := some PRIMARY_MODEL,
              nextPid := 1, loadsStarted := 1,
              callerPids := List.replicate (k + 1) 0,
              settled := [(0, .success h)] }, ?_, rfl, rfl, rfl, ?_⟩
    · rw [runLoader_append_of _ _ _ _ hcalls]
      rfl
    · intro _ m
      exact runLoader_calls_busy m _ 0 rfl
  | fallbackOk e h =>
    refine ⟨{ phase := .resolved 0 h, ready := true, activeModel := some FALLBACK_MODEL,
              nextPid := 1, loadsStarted := 1,
              callerPids := List.replicate (k + 1) 0,
              settled := [(0, .success h)] }, ?_, rfl, rfl, rfl, ?_⟩
    · rw [runLoader_append_of _ _ _ _ hcalls]
      rfl
    · intro _ m
      exact runLoader_calls_busy m _ 0 rfl
  | bothFail e e2 =>
    refine ⟨{ phase := .idle, ready := false, activeModel := none,
              nextPid := 1, loadsStarted := 1,
              callerPids := List.replicate (k + 1) 0,
              settled := [(0, .failure e2)] }, ?_, rfl, rfl, rfl, ?_⟩
    · rw [runLoader_append_of _ _ _ _ hcalls]
      rfl
    · intro hfalse
      simp [AttemptOutcome.isSuccess] at hfalse

theorem getPipe_single_flight_witness :
    1 ≤ 2 ∧
    ∃ s : LoaderState,
      runLoader (List.replicate 2 .call ++ attemptEvents (.primaryOk 7)) initLoader = some s ∧
      s.loadsStarted = 1 ∧
      s.callerPids = List.replicate 2 0 ∧
      s.settled = [(0, attemptResult (.primaryOk 7))] ∧
      ((AttemptOutcome.primaryOk 7).isSuccess = true → ∀ m : Nat,
        runLoader (List.replicate m .call) s =
          some { s with callerPids := s.callerPids ++ List.replicate m 0 }) :=
  ⟨by decide, getPipe_single_flight 2 (by decide) (.primaryOk 7)⟩

/-- C2: when the fallback load also fails, the inner catch resets the
shared state completely (`pipePromise = null`, i.e. phase idle;
`ready = false`; `activeModel = null`) and the shared promise rejects
with the fallback error, which every holder of that promise observes;
the next `getPipe` call from the reset state starts a brand-new load
sequence, beginning with the primary model. -/
theorem getPipe_reset_on_double_failure (s : LoaderState) (p : Nat) (e : String)
    (h : s.phase = .loadingFallback p) :
    loadStep s (.fallbackFail e) =
      some { s with phase := .idle, ready := false, activeModel := none,
                    settled := s.settled ++ [(p, .failure e)] } ∧
    loadStep { s with phase := .idle, ready := false, activeModel := none,
                      settled := s.settled ++ [(p, .failure e)] } .call =
      some { s with phase := .loadingPrimary s.nextPid, ready := false,
                    activeModel := none,
                    settled := s.settled ++ [(p, .failure e)],
                    nextPid := s.nextPid + 1, loadsStarted := s.loadsStarted + 1,
                    callerPids := s.callerPids ++ [s.nextPid] } := by
  constructor
  · simp [loadStep, h]
  · rfl

/-- Concrete state with a fallback load in flight, used to instantiate
the double-failure theorem. -/
def dblFailState : LoaderState :=
  ⟨.loadingFallback 0, false, none, 1, 1, [0, 0], []⟩

theorem getPipe_reset_on_double_failure_witness :
    dblFailState.phase = .loadingFallback 0 ∧
    (loadStep dblFailState (.fallbackFail "boom") =
      some { dblFailState with phase := .idle, ready := false, activeModel := none,
                               settled := dblFailState.settled ++ [(0, .failure "boom")] } ∧
    loadStep { dblFailState with phase := .idle, ready := false, activeModel := none,
                                 settled := dblFailState.settled ++ [(0, .failure "boom")] } .call =
      some { dblFailState with phase := .loadingPrimary dblFailState.nextPid, ready := false,
                               activeModel := none,
                               settled := dblFailState.settled ++ [(0, .failure "boom")],
                               nextPid := dblFailState.nextPid + 1,
                               loadsStarted := dblFailState.loadsStarted + 1,
                               callerPids := dblFailState.callerPids ++ [dblFailState.nextPid] }) :=
  ⟨rfl, getPipe_reset_on_double_failure dblFailState 0 "boom" rfl⟩

/-- Well-formedness of a loader state: the `ready` flag is set exactly
when some model is active, and the active model is always one of the two
configured identifiers. -/
def loaderWf (s : LoaderState) : Prop :=
  (s.ready = true ↔ s.activeModel ≠ none) ∧
  (s.activeModel = none ∨ s.activeModel = some PRIMARY_MODEL ∨
    s.activeModel = some FALLBACK_MODEL)

theorem initLoader_wf : loaderWf initLoader := by
  simp [loaderWf, initLoader]

theorem loadStep_wf (s s2 : LoaderState) (e : LoadEvent) (hw : loaderWf s)
    (h : loadStep s e = some s2) : loaderWf s2 := by
  cases e <;> cases hp : s.phase <;> simp [loadStep, hp] at h <;>
    subst h <;> simp_all [loaderWf]

theorem runLoader_wf (t : List LoadEvent) (s s2 : LoaderState) (hw : loaderWf s)
    (h : runLoader t s = some s2) : loaderWf s2 := by
  induction t generalizing s with
  | nil =>
    simp [runLoader] at h
    subst h
    exact hw
  | cons e t ih =>
    simp only [runLoader] at h
    cases h2 : loadStep s e with
    | none => rw [h2] at h; exact absurd h (by simp)
    | some s1 =>
      rw [h2] at h
      exact ih s1 (loadStep_wf s s1 e hw h2) h

/-- C10: in the fallback-capable variants, `ready` is true exactly when
`activeModel` is non-null, in every reachable loader state; both start as
false / null, are set together by `markReady`, cleared together by the
double-failure reset, and mutated nowhere else (no other transition of
`loadStep` touches them). -/
theorem ready_iff_activeModel (t : List LoadEvent) (s : LoaderState)
    (h : runLoader t initLoader = some s) :
    initLoader.ready = false ∧ initLoader.activeModel = none ∧
    (s.ready = true ↔ s.activeModel ≠ none) :=
  ⟨rfl, rfl, (runLoader_wf t initLoader s initLoader_wf h).1⟩

/-- State reached by one call whose primary load fails and whose fallback
load succeeds with handle 3. -/
def fbOkState : LoaderState :=
  ⟨.resolved 0 3, true, some FALLBACK_MODEL, 1, 1, [0], [(0, .success 3)]⟩

theorem ready_iff_activeModel_witness :
    runLoader [.call, .primaryFail "e", .fallbackOk 3] initLoader = some fbOkState ∧
    (initLoader.ready = false ∧ initLoader.activeModel = none ∧
      (fbOkState.ready = true ↔ fbOkState.activeModel ≠ none)) :=
  ⟨rfl, ready_iff_activeModel [.call, .primaryFail "e", .fallbackOk 3] fbOkState rfl⟩

/-- C8: the `GET /ready` and `GET /health` handlers return the loader
state unchanged (in particular they never trigger a load), `/ready`
reports the current `ready` flag and the active identifier (null when
none), and `/health` reports `ok: true` together with the active
identifier, defaulting to the configured primary identifier when no model
is loaded. -/
theorem ready_health_read_only (t : List LoadEvent) (s : LoaderState)
    (h : runLoader t initLoader = some s) :
    (handleReady s).1 = s ∧ (handleHealth s).1 = s ∧
    (handleReady s).2 = { ready := s.ready, model := s.activeModel } ∧
    (handleHealth s).2 = { ok := true, model := s.activeModel.getD PRIMARY_MODEL } := by
  refine ⟨rfl, rfl, rfl, ?_⟩
  have hw := runLoader_wf t initLoader s initLoader_wf h
  rcases hw.2 with h0 | h0 | h0 <;>
    simp [handleHealth, jsOrDefault, h0, PRIMARY_MODEL, FALLBACK_MODEL]

/-- State reached by one call whose primary load succeeds with handle 5. -/
def primOkState : LoaderState :=
  ⟨.resolved 0 5, true, some PRIMARY_MODEL, 1, 1, [0], [(0, .success 5)]⟩

theorem ready_health_read_only_witness :
    runLoader [.call, .primaryOk 5] initLoader = some primOkState ∧
    ((handleReady primOkState).1 = primOkState ∧
    (handleHealth primOkState).1 = primOkState ∧
    (handleReady primOkState).2 = { ready := primOkState.ready, model := primOkState.activeModel } ∧
    (handleHealth primOkState).2 =
      { ok := true, model := primOkState.activeModel.getD PRIMARY_MODEL }) :=
  ⟨rfl, ready_health_read_only [.call, .primaryOk 5] primOkState rfl⟩

/-- The image-input selection of the part_001-shaped `POST /caption`
handlers (src/unnamed/part_001 lines 108-124, duplicated in
src/unnamed/part_000 lines 113-125 and src/unnamed/part_003 lines
200-211): a truthy `image_url` is used directly; otherwise a truthy
`image_base64` is used as a data URI, prefixed with
`data:image/jpeg;base64,` when it does not already start with
`data:image/`; otherwise the handler throws
`Falta image_url o image_base64 en el body`. -/
def part001ImageInput (u b : Option String) : Except String String :=
  if truthy u then .ok (u.getD "")
  else if truthy b then
    let s := b.getD ""
    if startsWithLit ("data:image/") s then .ok s
    else .ok ("data:image/jpeg;base64," ++ s)
  else .error "Falta image_url o image_base64 en el body"

/-- The `POST /caption` handler of the part_001 variant
(src/unnamed/part_001 lines 104-148): select the image input, read it
with `RawImage.read`, await `getPipe` (whose settled outcome is the
`pipeOutcome` argument), run inference with the conditional
`max_new_tokens`, and answer 200 with
`model = activeModel || PRIMARY_MODEL`; any throw along the way is
caught into `500 {error}`. -/
def part001PostCaption (o : Oracle) (pipeOutcome : Except String Nat)
    (activeModel : Option String) (body : CaptionBody) : HttpResp :=
  let r : Except String String := do
    let imageInput ← part001ImageInput body.image_url body.image_base64
    let img ← o.readImage imageInput
    let pipe ← pipeOutcome
    let outs ← o.infer pipe img (effMaxNewTokens body.max_new_tokens)
    pure (outs.headD "")
  match r with
  | .ok caption =>
      { status := 200, body := .captionOk caption (jsOrDefault activeModel PRIMARY_MODEL) }
  | .error e => { status := 500, body := .errorMsg e }

/-- Oracle whose external calls all fail; the missing-input path never
reaches them. -/
def failOracle : Oracle :=
  ⟨fun _ => ⟨false, 404, []⟩, fun _ => [], fun _ => .error "x", fun _ => .error "x",
   fun _ _ _ => .error "x", fun _ _ _ => .error "x"⟩

/-- Oracle whose external calls all succeed. -/
def okOracle : Oracle :=
  ⟨fun _ => ⟨true, 200, [1, 2]⟩, fun _ => [9], fun _ => .ok 0, fun _ => .ok 0,
   fun _ _ _ => .ok ["a cat"], fun _ _ _ => .ok ["a cat"]⟩

/-- C4 counterexample: a caption request whose body has neither
`image_url` nor `image_base64` is answered with status 500, not 400 —
the `Falta image_url o image_base64` throw of `getImageBytes` is caught
by the single catch-all, which always uses `res.status(500)`
(src/server.js lines 465-468); no handler in the repository has a 400
path. -/
theorem caption_missing_input_status_not_400 :
    postCaption failOracle (.error "no pipe") none ⟨none, none, none⟩ =
      { status := 500, body := .errorMsg "Falta image_url o image_base64" } ∧
    (postCaption failOracle (.error "no pipe") none ⟨none, none, none⟩).status ≠ 400 := by
  constructor
  · rfl
  · decide

theorem getImageBytes_falsy (o : Oracle) (input : Option String)
    (h : truthy input = false) :
    getImageBytes o input = .error "Falta image_url o image_base64" := by
  cases input with
  | none => rfl
  | some s =>
    have hs : s = "" := by simpa [truthy] using h
    subst hs
    rfl

/-- C4 amended: a caption request whose body has neither field present
(absent or empty string, i.e. both falsy) is answered with HTTP 500 and
a JSON error body — never 400 — for every loader state and every
behaviour of the external calls, in both handler shapes of the
repository: the `getImageBytes`-based handlers (src/server.js,
src/unnamed/part_002, first variant of src/unnamed/part_003) throw
`Falta image_url o image_base64`, and the part_001-shaped handlers
(src/unnamed/part_000, src/unnamed/part_001, second variant of
src/unnamed/part_003) throw `Falta image_url o image_base64 en el body`;
both throws land in the catch-all that always uses `res.status(500)`. -/
theorem caption_missing_input_500 (o : Oracle) (po : Except String Nat)
    (am : Option String) (body : CaptionBody)
    (hu : truthy body.image_url = false) (hb : truthy body.image_base64 = false) :
    postCaption o po am body =
      { status := 500, body := .errorMsg "Falta image_url o image_base64" } ∧
    part001PostCaption o po am body =
      { status := 500, body := .errorMsg "Falta image_url o image_base64 en el body" } ∧
    (postCaption o po am body).status ≠ 400 ∧
    (part001PostCaption o po am body).status ≠ 400 := by
  have hgb : getImageBytes o (jsOrStr body.image_url body.image_base64) =
      .error "Falta image_url o image_base64" :=
    getImageBytes_falsy o _ (by simp [jsOrStr, hu, hb])
  have hsel : part001ImageInput body.image_url body.image_base64 =
      .error "Falta image_url o image_base64 en el body" := by
    simp [part001ImageInput, hu, hb]
  have h1 : postCaption o po am body =
      { status := 500, body := .errorMsg "Falta image_url o image_base64" } := by
    simp only [postCaption, hgb]
    rfl
  have h2 : part001PostCaption o po am body =
      { status := 500, body := .errorMsg "Falta image_url o image_base64 en el body" } := by
    simp only [part001PostCaption, hsel]
    rfl
  refine ⟨h1, h2, ?_, ?_⟩
  · rw [h1]
    decide
  · rw [h2]
    decide

theorem caption_missing_input_500_witness :
    truthy (some "") = false ∧ truthy none = false ∧
    (postCaption failOracle (.ok 5) (some FALLBACK_MODEL) ⟨some "", none, none⟩ =
      { status := 500, body := .errorMsg "Falta image_url o image_base64" } ∧
    part001PostCaption failOracle (.ok 5) (some FALLBACK_MODEL) ⟨some "", none, none⟩ =
      { status := 500, body := .errorMsg "Falta image_url o image_base64 en el body" } ∧
    (postCaption failOracle (.ok 5) (some FALLBACK_MODEL) ⟨some "", none, none⟩).status ≠ 400 ∧
    (part001PostCaption failOracle (.ok 5) (some FALLBACK_MODEL)
        ⟨some "", none, none⟩).status ≠ 400) :=
  ⟨rfl, rfl,
    caption_missing_input_500 failOracle (.ok 5) (some FALLBACK_MODEL)
      ⟨some "", none, none⟩ rfl rfl⟩

/-- C9: when the body carries both a non-empty `image_url` and a
non-empty `image_base64`, the handler resolves the image from
`image_url` (the `image_url || image_base64` selection picks the left
operand) and behaves exactly as if `image_base64` were absent; the
request is not rejected for supplying both forms. -/
theorem caption_prefers_image_url (o : Oracle) (po : Except String Nat)
    (am : Option String) (u b64 : String) (mt : Option JsVal)
    (hu : u ≠ "") (_hb : b64 ≠ "") :
    jsOrStr (some u) (some b64) = some u ∧
    postCaption o po am ⟨some u, some b64, mt⟩ =
      postCaption o po am ⟨some u, none, mt⟩ := by
  have hsel : jsOrStr (some u) (some b64) = some u := by
    simp [jsOrStr, truthy, hu]
  have hsel2 : jsOrStr (some u) none = some u := by
    simp [jsOrStr, truthy, hu]
  exact ⟨hsel, by simp [postCaption, hsel, hsel2]⟩

theorem caption_prefers_image_url_witness :
    ("http://example.com/cat.jpg" : String) ≠ "" ∧ ("QUJD" : String) ≠ "" ∧
    (jsOrStr (some "http://example.com/cat.jpg") (some "QUJD") =
        some "http://example.com/cat.jpg" ∧
      postCaption okOracle (.ok 5) (some FALLBACK_MODEL)
          ⟨some "http://example.com/cat.jpg", some "QUJD", none⟩ =
        postCaption okOracle (.ok 5) (some FALLBACK_MODEL)
          ⟨some "http://example.com/cat.jpg", none, none⟩) :=
  ⟨by decide, by decide,
    caption_prefers_image_url okOracle (.ok 5) (some FALLBACK_MODEL)
      "http://example.com/cat.jpg" "QUJD" none (by decide) (by decide)⟩

theorem exceptBind_ok {A B : Type} (a : A) (f : A → Except String B) :
    (Except.ok a >>= f : Except String B) = f a := rfl

/-- C3 (code bug in the part_002 variant): after the primary load failed
and the fallback succeeded, a well-formed caption request is answered
with `500 MODEL_ID is not defined`, never with a 200 response carrying
the fallback identifier: the response assembly of part_002 (line 152)
evaluates the identifier `MODEL_ID`, which that module does not declare,
so every caption request throws a `ReferenceError` inside the `try`.
The sibling variant in src/server.js (line 462) uses
`activeModel || PRIMARY_MODEL` and on the same request reports the
fallback identifier, as the spec requires. -/
theorem part002_caption_reference_error (o : Oracle) (hnd img : Nat)
    (u : String) (bs : List Nat) (cs : List String)
    (hu : truthy (some u) = true)
    (hbytes : getImageBytes o (some u) = .ok bs)
    (hinferB : o.inferBytes hnd bs 40 = .ok cs)
    (himg : o.rawRead bs = .ok img)
    (hinfer : o.infer hnd img 40 = .ok cs) :
    part002PostCaption o (.ok hnd) ⟨some u, none, none⟩ =
      { status := 500, body := .errorMsg "MODEL_ID is not defined" } ∧
    lookupConst part002Consts "MODEL_ID" = none ∧
    postCaption o (.ok hnd) (some FALLBACK_MODEL) ⟨some u, none, none⟩ =
      { status := 200, body := .captionOk (cs.headD "") FALLBACK_MODEL } := by
  have hsel : jsOrStr (some u) none = some u := by
    simp [jsOrStr, hu]
  have heff : effMaxNewTokens (none : Option JsVal) = 40 := rfl
  refine ⟨?_, rfl, ?_⟩
  · simp only [part002PostCaption, hsel, hbytes, heff, exceptBind_ok, hinferB]
    rfl
  · simp only [postCaption, hsel, hbytes, heff, exceptBind_ok, himg, hinfer]
    rfl

theorem part002_caption_reference_error_witness :
    truthy (some "http://example.com/cat.jpg") = true ∧
    getImageBytes okOracle (some "http://example.com/cat.jpg") = .ok [1, 2] ∧
    okOracle.inferBytes 5 [1, 2] 40 = .ok ["a cat"] ∧
    okOracle.rawRead [1, 2] = .ok 0 ∧
    okOracle.infer 5 0 40 = .ok ["a cat"] ∧
    (part002PostCaption okOracle (.ok 5) ⟨some "http://example.com/cat.jpg", none, none⟩ =
        { status := 500, body := .errorMsg "MODEL_ID is not defined" } ∧
      lookupConst part002Consts "MODEL_ID" = none ∧
      postCaption okOracle (.ok 5) (some FALLBACK_MODEL)
          ⟨some "http://example.com/cat.jpg", none, none⟩ =
        { status := 200, body := .captionOk (["a cat"].headD "") FALLBACK_MODEL }) :=
  ⟨rfl, rfl, rfl, rfl, rfl,
    part002_caption_reference_error okOracle 5 0 "http://example.com/cat.jpg" [1, 2]
      ["a cat"] rfl rfl rfl rfl rfl⟩

/-- C7 counterexample: the first variant of src/server.js (line 73)
passes the literal 40 to the pipeline even when the request body carries
the numeric `max_new_tokens` 10, so a numeric field is not passed
unchanged there. -/
theorem maxNewTokens_ignored_in_first_variant :
    effMaxNewTokensFirstVariant (some (.num 10)) = 40 ∧ (40 : ℚ) ≠ 10 := by
  constructor
  · rfl
  · norm_num

/-- C7 amended: in the fallback-capable handlers a numeric
`max_new_tokens` is passed unchanged and every non-numeric or absent
value falls back to the constant 40, while the minimal first variant of
src/server.js always passes the constant 40, ignoring the field. -/
theorem maxNewTokens_policy (q : ℚ) (v : Option JsVal)
    (hv : ∀ q2 : ℚ, v ≠ some (.num q2)) :
    effMaxNewTokens (some (.num q)) = q ∧
    effMaxNewTokens v = 40 ∧
    effMaxNewTokensFirstVariant v = 40 ∧
    effMaxNewTokensFirstVariant (some (.num q)) = 40 := by
  refine ⟨rfl, ?_, rfl, rfl⟩
  cases v with
  | none => rfl
  | some jv =>
    cases jv with
    | num n => exact absurd rfl (hv n)
    | str s => rfl
    | boolv b => rfl
    | nullv => rfl

theorem maxNewTokens_policy_witness :
    (∀ q2 : ℚ, (some (JsVal.str "x") : Option JsVal) ≠ some (.num q2)) ∧
    (effMaxNewTokens (some (.num 10)) = 10 ∧
      effMaxNewTokens (some (.str "x")) = 40 ∧
      effMaxNewTokensFirstVariant (some (.str "x")) = 40 ∧
      effMaxNewTokensFirstVariant (some (.num 10)) = 40) :=
  ⟨fun q2 h => by simp at h,
    maxNewTokens_policy 10 (some (.str "x")) (fun q2 h => by simp at h)⟩

/-- C6: `getSaturation` returns exactly 0 on every achromatic input
`r = g = b`, including 0: either the lightness is 0 or `max = min`,
and both take the early-return branch. -/
theorem getSaturation_achromatic (r : ℚ) : getSaturation r r r = 0 := by
  simp [getSaturation]

/-- C5 counterexample: on a solid red image the channel means are
(255, 0, 0), and `getSaturation` applied to them — exactly what the
metrics assembly does (src/unnamed/part_000 line 165) — yields
-255/253, outside [0, 1]: the HSL formula is applied to means in the
0..255 range although it expects values normalized to 0..1. -/
theorem saturation_not_in_unit_interval :
    getSaturation 255 0 0 = -255 / 253 ∧
    getSaturation 255 0 0 < 0 ∧
    ¬ (0 ≤ getSaturation 255 0 0 ∧ getSaturation 255 0 0 ≤ 1) := by
  have h : getSaturation 255 0 0 = -255 / 253 := by
    have hmx : max (255 : ℚ) (max 0 0) = 255 := by norm_num
    have hmn : min (255 : ℚ) (min 0 0) = 0 := by norm_num
    simp only [getSaturation, hmx, hmn]
    norm_num [abs_of_nonneg]
  refine ⟨h, ?_, ?_⟩
  · rw [h]
    norm_num
  · rw [h]
    intro hc
    have := hc.1
    norm_num at this

theorem list_sum_cast_le (buf : List Nat) (h : ∀ x ∈ buf, x ≤ 255) :
    (buf.map (fun x : Nat => (x : ℚ))).sum ≤ 255 * (buf.length : ℚ) := by
  induction buf with
  | nil => simp
  | cons a t ih =>
    have ha : (a : ℚ) ≤ 255 := by
      exact_mod_cast h a (List.mem_cons_self a t)
    have ht := ih (fun x hx => h x (List.mem_cons_of_mem a hx))
    simp only [List.map_cons, List.sum_cons, List.length_cons, Nat.cast_succ]
    linarith

theorem list_sum_cast_nonneg (buf : List Nat) :
    0 ≤ (buf.map (fun x : Nat => (x : ℚ))).sum := by
  apply List.sum_nonneg
  intro x hx
  obtain ⟨y, _, rfl⟩ := List.mem_map.mp hx
  exact Nat.cast_nonneg y

/-- C5 amended: for channel statistics of valid 8-bit-per-channel pixel
data (means and standard deviations in [0, 255], edge-buffer bytes at
most 255, non-empty buffer), the brightness, contrast and edge-density
metrics all lie in [0, 1]; the saturation metric does not satisfy this
bound (see the counterexample), and textRatio is the constant 0 while
dominantColor is an RGB triple. -/
theorem metrics_in_unit_interval (rm gm bm rs gs bs : ℚ) (buf : List Nat)
    (hrm1 : 0 ≤ rm) (hrm2 : rm ≤ 255) (hgm1 : 0 ≤ gm) (hgm2 : gm ≤ 255)
    (hbm1 : 0 ≤ bm) (hbm2 : bm ≤ 255)
    (hrs1 : 0 ≤ rs) (hrs2 : rs ≤ 255) (hgs1 : 0 ≤ gs) (hgs2 : gs ≤ 255)
    (hbs1 : 0 ≤ bs) (hbs2 : bs ≤ 255)
    (hbuf : ∀ x ∈ buf, x ≤ 255) (hne : buf ≠ []) :
    (0 ≤ brightnessMetric rm gm bm ∧ brightnessMetric rm gm bm ≤ 1) ∧
    (0 ≤ contrastMetric rs gs bs ∧ contrastMetric rs gs bs ≤ 1) ∧
    (0 ≤ edgeDensityMetric buf ∧ edgeDensityMetric buf ≤ 1) := by
  have hL : 0 < (buf.length : ℚ) := by
    have : 0 < buf.length := List.length_pos.mpr hne
    exact_mod_cast this
  have hS0 := list_sum_cast_nonneg buf
  have hSle := list_sum_cast_le buf hbuf
  refine ⟨⟨?_, ?_⟩, ⟨?_, ?_⟩, ⟨?_, ?_⟩⟩
  · simp only [brightnessMetric, div_div]
    apply div_nonneg (by linarith) (by norm_num)
  · simp only [brightnessMetric, div_div]
    rw [div_le_one (by norm_num)]
    linarith
  · simp only [contrastMetric, div_div]
    apply div_nonneg (by linarith) (by norm_num)
  · simp only [contrastMetric, div_div]
    rw [div_le_one (by norm_num)]
    linarith
  · simp only [edgeDensityMetric, div_div]
    apply div_nonneg hS0 (by positivity)
  · simp only [edgeDensityMetric, div_div]
    rw [div_le_one (by positivity)]
    nlinarith

theorem metrics_in_unit_interval_witness :
    ((0 : ℚ) ≤ 100 ∧ (100 : ℚ) ≤ 255) ∧
    ((0 : ℚ) ≤ 10 ∧ (10 : ℚ) ≤ 255) ∧
    (∀ x ∈ [0, 255], x ≤ 255) ∧ ([0, 255] : List Nat) ≠ [] ∧
    ((0 ≤ brightnessMetric 100 100 100 ∧ brightnessMetric 100 100 100 ≤ 1) ∧
      (0 ≤ contrastMetric 10 10 10 ∧ contrastMetric 10 10 10 ≤ 1) ∧
      (0 ≤ edgeDensityMetric [0, 255] ∧ edgeDensityMetric [0, 255] ≤ 1)) :=
  ⟨⟨by norm_num, by norm_num⟩, ⟨by norm_num, by norm_num⟩, by decide, by decide,
    metrics_in_unit_interval 100 100 100 10 10 10 [0, 255]
      (by norm_num) (by norm_num) (by norm_num) (by norm_num) (by norm_num) (by norm_num)
      (by norm_num) (by norm_num) (by norm_num) (by norm_num) (by norm_num) (by norm_num)
      (by decide) (by decide)⟩
